import Mathlib

/-!
# Car Dodging: the game loop of `src/main.cpp`

A shallow embedding of the gameplay part of `SDL_main` (lines 56-160 of
`src/main.cpp`): the event handler, the keyboard movement of the player and the
per-frame update (difficulty, spawning, entity movement, collisions, scoring
and purge).  Rendering, audio and asset loading have no effect on the modelled
state and are left out.

Integer model.
* `int` values are modelled by `Int`.  Signed overflow is undefined behaviour in
  C++, so the model describes the executions in which no signed operation
  overflows.  Signed `/` and `%` are the truncating `Int.tdiv` and `Int.tmod`.
* `Uint32` values (the millisecond clock and the three stored timestamps) are
  modelled by `Nat`; the unsigned subtraction is taken modulo `2 ^ 32`.

Inputs.  Everything the loop obtains from its environment is an explicit
argument: the polled events, the values returned by `SDL_GetTicks()`, the
keyboard state and the values returned by `rand()`.
-/

namespace CarDodging

/-! ## Constants (lines 11-13, 61, 73) -/

/-- Line 11: `const int SCREEN_WIDTH = 400;` -/
def SCREEN_WIDTH : Int := 400

/-- Line 12: `const int SCREEN_HEIGHT = 600;` -/
def SCREEN_HEIGHT : Int := 600

/-- Line 13: `const int LANE_WIDTH = 100;` -/
def LANE_WIDTH : Int := 100

/-- Line 61: `int playerSpeed = 10;` (never reassigned). -/
def playerSpeed : Int := 10

/-- Line 73: `int baseSpeed = 6;` (never reassigned). -/
def baseSpeed : Int := 6

/-- The modulus of `Uint32` arithmetic. -/
def UINT32_MOD : Nat := 4294967296

/-- `Uint32` subtraction `a - b`, modulo `2 ^ 32`. -/
def u32sub (a b : Nat) : Nat :=
  (a % UINT32_MOD + UINT32_MOD - b % UINT32_MOD) % UINT32_MOD

/-! ## Data model (lines 15-25) -/

/-- The SDL rectangle: `int x, y, w, h`. -/
structure SDL_Rect where
  x : Int
  y : Int
  w : Int
  h : Int
deriving DecidableEq

/-- Lines 15-18: `struct EnemyCar`. -/
structure EnemyCar where
  rect : SDL_Rect
  active : Bool := true
deriving DecidableEq

/-- Lines 20-23: `struct Star`. -/
structure Star where
  rect : SDL_Rect
  active : Bool := true
deriving DecidableEq

/-- Line 25: `enum GameState { MENU, PLAYING, GAME_OVER };` -/
inductive GameState where
  | MENU
  | PLAYING
  | GAME_OVER
deriving DecidableEq

/-- The event fields the loop reads: `e.type` and `e.key.keysym.sym`. -/
structure SDL_Event where
  type : Nat
  sym : Int
deriving DecidableEq

/-- The SDL event type code `SDL_QUIT` (0x100 in the SDL2 headers). -/
def SDL_QUIT : Nat := 256

/-- The SDL event type code `SDL_KEYDOWN` (0x300 in the SDL2 headers). -/
def SDL_KEYDOWN : Nat := 768

/-- The SDL key code `SDLK_RETURN` (carriage return, 13). -/
def SDLK_RETURN : Int := 13

/-- The local variables of `SDL_main` that the game loop reads and writes
(lines 56-75). -/
structure State where
  gameState : GameState
  running : Bool
  player : SDL_Rect
  enemies : List EnemyCar
  stars : List Star
  lastSpawnTime : Nat
  lastStarTime : Nat
  gameStartTime : Nat
  score : Int
  timePlayed : Int
  highScore : Int
  enemySpeed : Int
  starSpeed : Int
deriving DecidableEq

/-- Lines 56-75: the values of the locals when the loop is first entered. -/
def initState : State where
  gameState := GameState.MENU
  running := true
  player := { x := Int.tdiv SCREEN_WIDTH 2 - 25, y := SCREEN_HEIGHT - 100, w := 50, h := 80 }
  enemies := []
  stars := []
  lastSpawnTime := 0
  lastStarTime := 0
  gameStartTime := 0
  score := 0
  timePlayed := 0
  highScore := 0
  enemySpeed := baseSpeed
  starSpeed := 4

/-! ## The SDL intersection test -/

/-- Modelled from the spec: `SDL_HasIntersection` is a routine of the SDL
library, which is not under `src/`.  Section 4.6 describes it as axis-aligned
rectangle intersection with non-empty overlap in both axes; the definition
follows SDL's routine: on each axis the larger of the two lower ends must be
strictly below the smaller of the two upper ends. -/
def SDL_HasIntersection (a b : SDL_Rect) : Bool :=
  decide (max a.x b.x < min (a.x + a.w) (b.x + b.w)) &&
  decide (max a.y b.y < min (a.y + a.h) (b.y + b.h))

/-! ## Input handling (lines 79-107) -/

/-- Lines 80-98: the body of the `SDL_PollEvent` loop for one event.  `t1`,
`t2` and `t3` are the values the three `SDL_GetTicks()` calls of lines 88-90
return if they are reached. -/
def handleEvent (s : State) (e : SDL_Event) (t1 t2 t3 : Nat) : State :=
  let s1 : State := if e.type = SDL_QUIT then { s with running := false } else s
  if e.type = SDL_KEYDOWN then
    let s2 : State :=
      if s1.gameState = GameState.MENU ∧ e.sym = SDLK_RETURN then
        { s1 with
          player := { s1.player with x := Int.tdiv SCREEN_WIDTH 2 - 25 }
          enemies := []
          stars := []
          lastSpawnTime := t1
          lastStarTime := t2
          gameStartTime := t3
          score := 0
          timePlayed := 0
          gameState := GameState.PLAYING }
      else s1
    if s2.gameState = GameState.GAME_OVER ∧ e.sym = SDLK_RETURN then
      { s2 with gameState := GameState.MENU }
    else s2
  else s1

/-- Lines 101-107: keyboard movement of the player; `left` and `right` are
`keys[SDL_SCANCODE_LEFT]` and `keys[SDL_SCANCODE_RIGHT]`. -/
def movePlayer (s : State) (left right : Bool) : State :=
  if s.gameState = GameState.PLAYING then
    let p1 : SDL_Rect :=
      if left = true ∧ s.player.x > 0 then { s.player with x := s.player.x - playerSpeed }
      else s.player
    let p2 : SDL_Rect :=
      if right = true ∧ p1.x + p1.w < SCREEN_WIDTH then { p1 with x := p1.x + playerSpeed }
      else p1
    { s with player := p2 }
  else s

/-! ## Update (lines 110-160) -/

/-- Lines 117-118: the obstacle pushed for the `rand()` value `r`. -/
def spawnEnemy (r : Int) : EnemyCar :=
  { rect := { x := Int.tmod r 4 * LANE_WIDTH + 25, y := -80, w := 50, h := 80 } }

/-- Lines 123-124: the bonus pushed for the `rand()` value `r`. -/
def spawnStar (r : Int) : Star :=
  { rect := { x := Int.tmod r 4 * LANE_WIDTH + 35, y := -20, w := 30, h := 30 } }

/-- Lines 129-131: the body of the obstacle position loop. -/
def moveEnemy (enemySpeed : Int) (e : EnemyCar) : EnemyCar :=
  let y := e.rect.y + enemySpeed
  { rect := { e.rect with y := y }, active := if y > SCREEN_HEIGHT then false else e.active }

/-- Lines 135-137: the body of the bonus position loop. -/
def moveStar (starSpeed : Int) (st : Star) : Star :=
  let y := st.rect.y + starSpeed
  { rect := { st.rect with y := y }, active := if y > SCREEN_HEIGHT then false else st.active }

/-- Lines 140-146: the obstacle collision loop, threading `gameState` and
`highScore` through the obstacles in order. -/
def collideEnemies (player : SDL_Rect) (score : Int) :
    List EnemyCar → GameState × Int → GameState × Int
  | [], acc => acc
  | e :: es, acc =>
    if SDL_HasIntersection player e.rect = true then
      collideEnemies player score es
        (GameState.GAME_OVER, if score > acc.2 then score else acc.2)
    else collideEnemies player score es acc

/-- Lines 148-154: the bonus collection loop, threading `score` through the
bonuses in order and clearing the `active` flag of each collected one. -/
def collectStars (player : SDL_Rect) : List Star → Int → List Star × Int
  | [], score => ([], score)
  | st :: rest, score =>
    if SDL_HasIntersection player st.rect = true then
      let r := collectStars player rest (score + 5)
      ({ st with active := false } :: r.1, r.2)
    else
      let r := collectStars player rest score
      (st :: r.1, r.2)

/-- Lines 110-160: the update block.  `now` is the value of `SDL_GetTicks()`
at line 111, `r1` and `r2` the values of `rand()` at lines 117 and 123. -/
def update (s : State) (now : Nat) (r1 r2 : Int) : State :=
  if s.gameState = GameState.PLAYING then
    let timePlayed : Int := Int.ofNat (u32sub now s.gameStartTime / 1000)
    let enemySpeed : Int := baseSpeed + Int.tdiv timePlayed 5
    let starSpeed : Int := 2 + Int.tdiv timePlayed 5
    let spawnE : Bool := decide (u32sub now s.lastSpawnTime > 1000)
    let enemies1 : List EnemyCar := if spawnE then s.enemies ++ [spawnEnemy r1] else s.enemies
    let spawnS : Bool := decide (u32sub now s.lastStarTime > 3000)
    let stars1 : List Star := if spawnS then s.stars ++ [spawnStar r2] else s.stars
    let enemies2 : List EnemyCar := enemies1.map (moveEnemy enemySpeed)
    let stars2 : List Star := stars1.map (moveStar starSpeed)
    let hit := collideEnemies s.player s.score enemies2 (s.gameState, s.highScore)
    let got := collectStars s.player stars2 s.score
    { s with
      gameState := hit.1
      highScore := hit.2
      score := got.2
      timePlayed := timePlayed
      enemySpeed := enemySpeed
      starSpeed := starSpeed
      lastSpawnTime := if spawnE then now else s.lastSpawnTime
      lastStarTime := if spawnS then now else s.lastStarTime
      enemies := enemies2.filter (fun e => e.active)
      stars := got.1.filter (fun st => st.active) }
  else s

/-- Lines 101-160: the part of one loop iteration that follows event polling
(keyboard movement, then update). -/
def frame (s : State) (left right : Bool) (now : Nat) (r1 r2 : Int) : State :=
  update (movePlayer s left right) now r1 r2

/-- The states the loop can be in, at the head of an iteration or between two
polled events: start from `initState`, handle an event, or run the rest of an
iteration.  `rand()` returns values in `[0, RAND_MAX]`, hence the two
non-negativity premises. -/
inductive Reachable : State → Prop
  | start : Reachable initState
  | event (s : State) (e : SDL_Event) (t1 t2 t3 : Nat) :
      Reachable s → Reachable (handleEvent s e t1 t2 t3)
  | frame (s : State) (left right : Bool) (now : Nat) (r1 r2 : Int) :
      Reachable s → 0 ≤ r1 → 0 ≤ r2 → Reachable (frame s left right now r1 r2)

/-! ## The loop (lines 77-160) -/

/-- One polled event together with the clock values its handler would read. -/
structure Polled where
  e : SDL_Event
  t1 : Nat
  t2 : Nat
  t3 : Nat

/-- Lines 79-99: the `while (SDL_PollEvent(&e))` loop over the pending events. -/
def pollEvents (s : State) : List Polled → State
  | [] => s
  | q :: rest => pollEvents (handleEvent s q.e q.t1 q.t2 q.t3) rest

/-- What one loop iteration reads from its environment. -/
structure LoopInput where
  events : List Polled
  left : Bool
  right : Bool
  now : Nat
  r1 : Int
  r2 : Int

/-- Lines 78-160: one iteration of the `while (running)` loop. -/
def loopBody (s : State) (i : LoopInput) : State :=
  frame (pollEvents s i.events) i.left i.right i.now i.r1 i.r2

/-- Line 77: `while (running)`, run over the given inputs, one per iteration. -/
def runLoop (s : State) : List LoopInput → State
  | [] => s
  | i :: rest => if s.running = true then runLoop (loopBody s i) rest else s

/-- The four x-offsets `100 * lane + off` for `lane` in `0..3`. -/
def InLane (off x : Int) : Prop :=
  x = off ∨ x = 100 + off ∨ x = 200 + off ∨ x = 300 + off

/-- The facts that hold of the locals throughout the loop. -/
structure Inv (s : State) : Prop where
  player_w : s.player.w = 50
  player_y : s.player.y = 500
  player_h : s.player.h = 80
  player_lo : -5 ≤ s.player.x
  player_hi : s.player.x ≤ 355
  player_mod : s.player.x % 10 = 5
  enemies_ok : ∀ e ∈ s.enemies, e.active = true ∧ e.rect.w = 50 ∧ InLane 25 e.rect.x
  stars_ok : ∀ st ∈ s.stars, st.active = true ∧ st.rect.w = 30 ∧ InLane 35 st.rect.x
  score_nonneg : 0 ≤ s.score

/-! ## Concrete runs -/

/-- The confirm key-down event (Enter). -/
def confirmEvent : SDL_Event := { type := SDL_KEYDOWN, sym := SDLK_RETURN }

/-- Iteration `f` of a run whose iterations are `dt` milliseconds apart: the
confirm key is pressed at time 0 in iteration 0, which starts the session. -/
def steadyInput (dt : Nat) (left right : Bool) (r1 r2 : Int) (f : Nat) : LoopInput :=
  { events := if f = 0 then [{ e := confirmEvent, t1 := 0, t2 := 0, t3 := 0 }] else []
    left := left
    right := right
    now := dt * f
    r1 := r1
    r2 := r2 }

/-- Eighteen iterations, 16 ms apart, with the left key held. -/
def holdLeftRun : List LoopInput :=
  (List.range 18).map (steadyInput 16 true false 0 0)

/-- Eighteen iterations, 16 ms apart, with the right key held. -/
def holdRightRun : List LoopInput :=
  (List.range 18).map (steadyInput 16 false true 0 0)

/-- A session of 306 iterations, 26 ms apart.  The left key is held during the
first two iterations (player at x = 155, in lane 1).  The bonus spawned in
iteration 116 and the obstacle spawned in iteration 234 are placed in lane 1,
every other spawn in lane 3. -/
def crashRun : List LoopInput :=
  (List.range 306).map (fun f =>
    steadyInput 26 (decide (f < 2)) false (if f = 234 then 1 else 3)
      (if f = 116 then 1 else 3) f)

/-- The first `n` iterations of a session, 16 ms apart, with no key held and
every spawn in lane 0. -/
def quietRun (n : Nat) : List LoopInput :=
  (List.range n).map (steadyInput 16 false false 0 0)

/-- A Playing state with the given score and high score in which the player, at
x = 155, is about to be hit by an obstacle in lane 1. -/
def crashState (score highScore : Int) : State :=
  { initState with
    gameState := GameState.PLAYING
    player := { x := 155, y := 500, w := 50, h := 80 }
    enemies := [{ rect := { x := 125, y := 430, w := 50, h := 80 } }]
    score := score
    highScore := highScore }

/-- A Playing state with score 0 and two bonuses in lane 1 above the player (at
x = 155): the first reaches the player in the next frame, the second one frame
later. -/
def twoStarState : State :=
  { initState with
    gameState := GameState.PLAYING
    player := { x := 155, y := 500, w := 50, h := 80 }
    stars := [{ rect := { x := 135, y := 470, w := 30, h := 30 } },
              { rect := { x := 135, y := 468, w := 30, h := 30 } }] }

end CarDodging

namespace CarDodging

/-! ## Auxiliary facts about the loops -/

theorem center_x : Int.tdiv SCREEN_WIDTH 2 - 25 = 175 := by decide

theorem lane_of_rand (r : Int) (hr : 0 ≤ r) :
    Int.tmod r 4 = r % 4 ∧ 0 ≤ r % 4 ∧ r % 4 < 4 := by
  refine ⟨Int.tmod_eq_emod hr (by decide), ?_, ?_⟩ <;> omega

theorem collideEnemies_eq (p : SDL_Rect) (score : Int) (es : List EnemyCar)
    (acc : GameState × Int) :
    collideEnemies p score es acc =
      if es.any (fun e => SDL_HasIntersection p e.rect) = true then
        (GameState.GAME_OVER, max acc.2 score)
      else acc := by
  induction es generalizing acc with
  | nil => simp [collideEnemies]
  | cons e es ih =>
    by_cases h : SDL_HasIntersection p e.rect = true
    · have hmax : (if score > acc.2 then score else acc.2) = max acc.2 score := by
        rw [max_def]; split_ifs <;> omega
      simp only [collideEnemies, h, if_true, ih, List.any_cons, Bool.true_or, hmax]
      split_ifs <;> simp
    · simp only [collideEnemies, h, if_false, ih, List.any_cons]
      simp [h]

theorem collectStars_snd (p : SDL_Rect) (sts : List Star) (score : Int) :
    (collectStars p sts score).2 =
      score + 5 * (sts.countP (fun st => SDL_HasIntersection p st.rect) : Nat) := by
  induction sts generalizing score with
  | nil => simp [collectStars]
  | cons st rest ih =>
    by_cases h : SDL_HasIntersection p st.rect = true
    · simp only [collectStars, h, if_true, ih, List.countP_cons_of_pos]
      push_cast; ring
    · simp [collectStars, h, ih]

theorem collectStars_fst (p : SDL_Rect) (sts : List Star) (score : Int) :
    (collectStars p sts score).1 =
      sts.map (fun st =>
        if SDL_HasIntersection p st.rect = true then { st with active := false } else st) := by
  induction sts generalizing score with
  | nil => simp [collectStars]
  | cons st rest ih =>
    by_cases h : SDL_HasIntersection p st.rect = true
    · simp only [collectStars, h, if_true, ih, List.map_cons]
    · simp only [collectStars, h, if_false, ih, List.map_cons]
      simp

/-! ## The invariant -/

theorem update_of_playing (s : State) (now : Nat) (r1 r2 : Int)
    (hp : s.gameState = GameState.PLAYING) :
    update s now r1 r2 =
      { s with
        gameState := (collideEnemies s.player s.score
          ((if decide (u32sub now s.lastSpawnTime > 1000) = true
            then s.enemies ++ [spawnEnemy r1] else s.enemies).map
            (moveEnemy (baseSpeed + Int.tdiv (Int.ofNat (u32sub now s.gameStartTime / 1000)) 5)))
          (s.gameState, s.highScore)).1
        highScore := (collideEnemies s.player s.score
          ((if decide (u32sub now s.lastSpawnTime > 1000) = true
            then s.enemies ++ [spawnEnemy r1] else s.enemies).map
            (moveEnemy (baseSpeed + Int.tdiv (Int.ofNat (u32sub now s.gameStartTime / 1000)) 5)))
          (s.gameState, s.highScore)).2
        score := (collectStars s.player
          ((if decide (u32sub now s.lastStarTime > 3000) = true
            then s.stars ++ [spawnStar r2] else s.stars).map
            (moveStar (2 + Int.tdiv (Int.ofNat (u32sub now s.gameStartTime / 1000)) 5)))
          s.score).2
        timePlayed := Int.ofNat (u32sub now s.gameStartTime / 1000)
        enemySpeed := baseSpeed + Int.tdiv (Int.ofNat (u32sub now s.gameStartTime / 1000)) 5
        starSpeed := 2 + Int.tdiv (Int.ofNat (u32sub now s.gameStartTime / 1000)) 5
        lastSpawnTime := if decide (u32sub now s.lastSpawnTime > 1000) = true then now
          else s.lastSpawnTime
        lastStarTime := if decide (u32sub now s.lastStarTime > 3000) = true then now
          else s.lastStarTime
        enemies := ((if decide (u32sub now s.lastSpawnTime > 1000) = true
            then s.enemies ++ [spawnEnemy r1] else s.enemies).map
            (moveEnemy (baseSpeed + Int.tdiv (Int.ofNat (u32sub now s.gameStartTime / 1000)) 5))).filter
            (fun e => e.active)
        stars := ((collectStars s.player
          ((if decide (u32sub now s.lastStarTime > 3000) = true
            then s.stars ++ [spawnStar r2] else s.stars).map
            (moveStar (2 + Int.tdiv (Int.ofNat (u32sub now s.gameStartTime / 1000)) 5)))
          s.score).1).filter (fun st => st.active) } := by
  simp only [update, hp, if_true]

theorem update_of_not_playing (s : State) (now : Nat) (r1 r2 : Int)
    (hp : s.gameState ≠ GameState.PLAYING) : update s now r1 r2 = s := by
  simp only [update, hp, if_false]

theorem spawnEnemy_inLane (r : Int) (hr : 0 ≤ r) : InLane 25 (spawnEnemy r).rect.x := by
  obtain ⟨h1, h2, h3⟩ := lane_of_rand r hr
  simp only [spawnEnemy, InLane, LANE_WIDTH, h1]
  omega

theorem spawnStar_inLane (r : Int) (hr : 0 ≤ r) : InLane 35 (spawnStar r).rect.x := by
  obtain ⟨h1, h2, h3⟩ := lane_of_rand r hr
  simp only [spawnStar, InLane, LANE_WIDTH, h1]
  omega

theorem inv_initState : Inv initState := by
  constructor <;> simp [initState, SCREEN_WIDTH, SCREEN_HEIGHT] <;> decide

theorem inv_handleEvent (s : State) (e : SDL_Event) (t1 t2 t3 : Nat) (h : Inv s) :
    Inv (handleEvent s e t1 t2 t3) := by
  obtain ⟨h1, h2, h3, h4, h5, h6, h7, h8, h9⟩ := h
  unfold handleEvent
  simp only [center_x]
  split_ifs <;> constructor <;> simp_all

theorem inv_movePlayer (s : State) (left right : Bool) (h : Inv s) :
    Inv (movePlayer s left right) := by
  obtain ⟨h1, h2, h3, h4, h5, h6, h7, h8, h9⟩ := h
  unfold movePlayer
  simp only [playerSpeed, SCREEN_WIDTH]
  split_ifs <;> constructor <;> simp_all <;> omega

theorem inv_update (s : State) (now : Nat) (r1 r2 : Int) (h : Inv s)
    (hr1 : 0 ≤ r1) (hr2 : 0 ≤ r2) : Inv (update s now r1 r2) := by
  by_cases hp : s.gameState = GameState.PLAYING
  · rw [update_of_playing s now r1 r2 hp]
    obtain ⟨h1, h2, h3, h4, h5, h6, h7, h8, h9⟩ := h
    refine ⟨h1, h2, h3, h4, h5, h6, ?_, ?_, ?_⟩
    · intro e he
      simp only [List.mem_filter, List.mem_map] at he
      obtain ⟨⟨e0, he0, rfl⟩, hact⟩ := he
      have h0 : e0.rect.w = 50 ∧ InLane 25 e0.rect.x := by
        split_ifs at he0
        · rcases List.mem_append.mp he0 with hm | hm
          · exact (h7 e0 hm).2
          · rw [List.mem_singleton] at hm
            subst hm
            exact ⟨rfl, spawnEnemy_inLane r1 hr1⟩
        · exact (h7 e0 he0).2
      exact ⟨hact, h0⟩
    · intro st hst
      simp only [collectStars_fst, List.mem_filter, List.mem_map] at hst
      obtain ⟨⟨st1, ⟨st0, hst0, rfl⟩, rfl⟩, hact⟩ := hst
      have h0 : st0.rect.w = 30 ∧ InLane 35 st0.rect.x := by
        split_ifs at hst0
        · rcases List.mem_append.mp hst0 with hm | hm
          · exact (h8 st0 hm).2
          · rw [List.mem_singleton] at hm
            subst hm
            exact ⟨rfl, spawnStar_inLane r2 hr2⟩
        · exact (h8 st0 hst0).2
      refine ⟨hact, ?_⟩
      split_ifs <;> exact h0
    · simp only [collectStars_snd]
      omega
  · rw [update_of_not_playing s now r1 r2 hp]
    exact h

theorem reachable_inv (s : State) (h : Reachable s) : Inv s := by
  induction h with
  | start => exact inv_initState
  | event s e t1 t2 t3 _ ih => exact inv_handleEvent s e t1 t2 t3 ih
  | frame s left right now r1 r2 _ hr1 hr2 ih =>
    exact inv_update _ now r1 r2 (inv_movePlayer s left right ih) hr1 hr2

theorem reachable_pollEvents (s : State) (evs : List Polled) (h : Reachable s) :
    Reachable (pollEvents s evs) := by
  induction evs generalizing s with
  | nil => exact h
  | cons q rest ih => exact ih _ (Reachable.event s q.e q.t1 q.t2 q.t3 h)

theorem reachable_runLoop (inputs : List LoopInput) (s : State) (h : Reachable s)
    (hv : ∀ i ∈ inputs, 0 ≤ i.r1 ∧ 0 ≤ i.r2) : Reachable (runLoop s inputs) := by
  induction inputs generalizing s with
  | nil => exact h
  | cons i rest ih =>
    simp only [runLoop]
    split_ifs
    · apply ih
      · exact Reachable.frame _ i.left i.right i.now i.r1 i.r2
          (reachable_pollEvents s i.events h) (hv i (List.mem_cons_self _ _)).1
          (hv i (List.mem_cons_self _ _)).2
      · intro j hj
        exact hv j (List.mem_cons_of_mem _ hj)
    · exact h

/-! ## The frame, field by field -/

@[simp] theorem movePlayer_gameState (s : State) (l r : Bool) :
    (movePlayer s l r).gameState = s.gameState := by
  unfold movePlayer; split_ifs <;> rfl

@[simp] theorem movePlayer_enemies (s : State) (l r : Bool) :
    (movePlayer s l r).enemies = s.enemies := by
  unfold movePlayer; split_ifs <;> rfl

@[simp] theorem movePlayer_stars (s : State) (l r : Bool) :
    (movePlayer s l r).stars = s.stars := by
  unfold movePlayer; split_ifs <;> rfl

@[simp] theorem movePlayer_lastSpawnTime (s : State) (l r : Bool) :
    (movePlayer s l r).lastSpawnTime = s.lastSpawnTime := by
  unfold movePlayer; split_ifs <;> rfl

@[simp] theorem movePlayer_lastStarTime (s : State) (l r : Bool) :
    (movePlayer s l r).lastStarTime = s.lastStarTime := by
  unfold movePlayer; split_ifs <;> rfl

@[simp] theorem movePlayer_gameStartTime (s : State) (l r : Bool) :
    (movePlayer s l r).gameStartTime = s.gameStartTime := by
  unfold movePlayer; split_ifs <;> rfl

@[simp] theorem movePlayer_score (s : State) (l r : Bool) :
    (movePlayer s l r).score = s.score := by
  unfold movePlayer; split_ifs <;> rfl

@[simp] theorem movePlayer_highScore (s : State) (l r : Bool) :
    (movePlayer s l r).highScore = s.highScore := by
  unfold movePlayer; split_ifs <;> rfl

theorem frame_player (s : State) (l r : Bool) (now : Nat) (r1 r2 : Int) :
    (frame s l r now r1 r2).player = (movePlayer s l r).player := by
  unfold frame update; split_ifs <;> rfl

theorem frame_timePlayed (s : State) (l r : Bool) (now : Nat) (r1 r2 : Int)
    (hp : s.gameState = GameState.PLAYING) :
    (frame s l r now r1 r2).timePlayed = Int.ofNat (u32sub now s.gameStartTime / 1000) := by
  unfold frame
  rw [update_of_playing _ _ _ _ (by simpa using hp)]
  simp

theorem frame_enemySpeed (s : State) (l r : Bool) (now : Nat) (r1 r2 : Int)
    (hp : s.gameState = GameState.PLAYING) :
    (frame s l r now r1 r2).enemySpeed =
      baseSpeed + Int.tdiv (Int.ofNat (u32sub now s.gameStartTime / 1000)) 5 := by
  unfold frame
  rw [update_of_playing _ _ _ _ (by simpa using hp)]
  simp

theorem frame_starSpeed (s : State) (l r : Bool) (now : Nat) (r1 r2 : Int)
    (hp : s.gameState = GameState.PLAYING) :
    (frame s l r now r1 r2).starSpeed =
      2 + Int.tdiv (Int.ofNat (u32sub now s.gameStartTime / 1000)) 5 := by
  unfold frame
  rw [update_of_playing _ _ _ _ (by simpa using hp)]
  simp

theorem frame_enemies (s : State) (l r : Bool) (now : Nat) (r1 r2 : Int)
    (hp : s.gameState = GameState.PLAYING) :
    (frame s l r now r1 r2).enemies =
      ((if u32sub now s.lastSpawnTime > 1000 then s.enemies ++ [spawnEnemy r1]
        else s.enemies).map (moveEnemy (frame s l r now r1 r2).enemySpeed)).filter
        (fun e => e.active) := by
  rw [frame_enemySpeed s l r now r1 r2 hp]
  unfold frame
  rw [update_of_playing _ _ _ _ (by simpa using hp)]
  simp

theorem frame_collide (s : State) (l r : Bool) (now : Nat) (r1 r2 : Int)
    (hp : s.gameState = GameState.PLAYING) :
    ((frame s l r now r1 r2).gameState, (frame s l r now r1 r2).highScore) =
      collideEnemies (frame s l r now r1 r2).player s.score
        ((if u32sub now s.lastSpawnTime > 1000 then s.enemies ++ [spawnEnemy r1]
          else s.enemies).map (moveEnemy (frame s l r now r1 r2).enemySpeed))
        (GameState.PLAYING, s.highScore) := by
  rw [frame_enemySpeed s l r now r1 r2 hp, frame_player]
  unfold frame
  rw [update_of_playing _ _ _ _ (by simpa using hp)]
  simp [hp]

theorem frame_collect (s : State) (l r : Bool) (now : Nat) (r1 r2 : Int)
    (hp : s.gameState = GameState.PLAYING) :
    ((frame s l r now r1 r2).stars, (frame s l r now r1 r2).score) =
      (((collectStars (frame s l r now r1 r2).player
        ((if u32sub now s.lastStarTime > 3000 then s.stars ++ [spawnStar r2]
          else s.stars).map (moveStar (frame s l r now r1 r2).starSpeed)) s.score).1).filter
          (fun st => st.active),
       (collectStars (frame s l r now r1 r2).player
        ((if u32sub now s.lastStarTime > 3000 then s.stars ++ [spawnStar r2]
          else s.stars).map (moveStar (frame s l r now r1 r2).starSpeed)) s.score).2) := by
  rw [frame_starSpeed s l r now r1 r2 hp, frame_player]
  unfold frame
  rw [update_of_playing _ _ _ _ (by simpa using hp)]
  simp

theorem u32sub_of_le (a b : Nat) (hle : b ≤ a) (hlt : a < UINT32_MOD) :
    u32sub a b = a - b := by
  unfold u32sub UINT32_MOD at *
  omega

theorem update_collide (s : State) (now : Nat) (r1 r2 : Int)
    (hp : s.gameState = GameState.PLAYING) :
    ((update s now r1 r2).gameState, (update s now r1 r2).highScore) =
      collideEnemies s.player s.score
        ((if u32sub now s.lastSpawnTime > 1000 then s.enemies ++ [spawnEnemy r1]
          else s.enemies).map (moveEnemy (update s now r1 r2).enemySpeed))
        (GameState.PLAYING, s.highScore) := by
  rw [update_of_playing s now r1 r2 hp]
  simp [hp]

theorem collide_moved (p : SDL_Rect) (score hs v : Int) (l : List EnemyCar) :
    collideEnemies p score (l.map (moveEnemy v)) (GameState.PLAYING, hs) =
      if 1 ≤ l.countP (fun e => SDL_HasIntersection p
        { x := e.rect.x, y := e.rect.y + v, w := e.rect.w, h := e.rect.h }) then
        (GameState.GAME_OVER, max hs score)
      else (GameState.PLAYING, hs) := by
  rw [collideEnemies_eq]
  have hiff : ((l.map (moveEnemy v)).any (fun e => SDL_HasIntersection p e.rect) = true) ↔
      1 ≤ l.countP (fun e => SDL_HasIntersection p
        { x := e.rect.x, y := e.rect.y + v, w := e.rect.w, h := e.rect.h }) := by
    rw [Nat.succ_le_iff, List.countP_pos_iff]
    simp [List.any_map, moveEnemy]
  by_cases h : 1 ≤ l.countP (fun e => SDL_HasIntersection p
        { x := e.rect.x, y := e.rect.y + v, w := e.rect.w, h := e.rect.h })
  · rw [if_pos h, if_pos (hiff.mpr h)]
  · rw [if_neg h, if_neg (fun h2 => h (hiff.mp h2))]

theorem keydown_ne_quit : SDL_KEYDOWN ≠ SDL_QUIT := by decide

theorem collected_purge (p : SDL_Rect) (l : List Star) :
    (l.map (fun st =>
        if SDL_HasIntersection p st.rect = true then { st with active := false } else st)).filter
        (fun st => st.active) =
      l.filter (fun st => st.active && !SDL_HasIntersection p st.rect) := by
  induction l with
  | nil => rfl
  | cons st rest ih =>
    simp only [List.map_cons, List.filter_cons, ih]
    by_cases h : SDL_HasIntersection p st.rect = true
    · simp [h]
    · simp [h]

theorem count_moved_stars (p : SDL_Rect) (v : Int) (l : List Star) :
    (l.map (moveStar v)).countP (fun st => SDL_HasIntersection p st.rect) =
      l.countP (fun st => SDL_HasIntersection p
        { x := st.rect.x, y := st.rect.y + v, w := st.rect.w, h := st.rect.h }) := by
  rw [List.countP_map]
  rfl

theorem purge_moved (v : Int) (l : List EnemyCar) (hact : ∀ e ∈ l, e.active = true) :
    (l.map (moveEnemy v)).filter (fun e => e.active) =
      (l.map (fun e =>
        ({ rect := { x := e.rect.x, y := e.rect.y + v, w := e.rect.w, h := e.rect.h },
           active := e.active } : EnemyCar))).filter
        (fun e => decide (e.rect.y ≤ SCREEN_HEIGHT)) := by
  induction l with
  | nil => rfl
  | cons e rest ih =>
    have hrest := ih (fun x hx => hact x (List.mem_cons_of_mem _ hx))
    have he := hact e (List.mem_cons_self _ _)
    simp only [List.map_cons, List.filter_cons, hrest]
    by_cases hy : e.rect.y + v ≤ SCREEN_HEIGHT
    · have hy2 : ¬ (e.rect.y + v > SCREEN_HEIGHT) := not_lt.mpr hy
      simp [moveEnemy, hy, hy2, he]
    · have hy2 : e.rect.y + v > SCREEN_HEIGHT := not_le.mp hy
      simp [moveEnemy, hy, hy2]

theorem handleEvent_of_playing (s : State) (e : SDL_Event) (t1 t2 t3 : Nat)
    (hp : s.gameState = GameState.PLAYING) :
    (handleEvent s e t1 t2 t3).gameState = GameState.PLAYING ∧
    (handleEvent s e t1 t2 t3).score = s.score := by
  unfold handleEvent
  split_ifs <;> simp_all

theorem pollEvents_of_playing (evs : List Polled) (s : State)
    (hp : s.gameState = GameState.PLAYING) :
    (pollEvents s evs).gameState = GameState.PLAYING ∧ (pollEvents s evs).score = s.score := by
  induction evs generalizing s with
  | nil => exact ⟨hp, rfl⟩
  | cons q rest ih =>
    obtain ⟨h1, h2⟩ := handleEvent_of_playing s q.e q.t1 q.t2 q.t3 hp
    obtain ⟨h3, h4⟩ := ih _ h1
    exact ⟨h3, h4.trans h2⟩

theorem frame_score_le (s : State) (l r : Bool) (now : Nat) (r1 r2 : Int)
    (hp : s.gameState = GameState.PLAYING) : s.score ≤ (frame s l r now r1 r2).score := by
  have hc := frame_collect s l r now r1 r2 hp
  rw [collectStars_snd] at hc
  have h2 := (Prod.mk.inj hc).2
  omega

theorem quietRun_reachable (n : Nat) : Reachable (runLoop initState (quietRun n)) := by
  apply reachable_runLoop _ _ Reachable.start
  intro i hi
  simp only [quietRun, List.mem_map] at hi
  obtain ⟨f, _, rfl⟩ := hi
  exact ⟨le_refl 0, le_refl 0⟩

theorem steadyInput_valid (dt : Nat) (left right : Bool) (r1 r2 : Int) (f : Nat)
    (h1 : 0 ≤ r1) (h2 : 0 ≤ r2) :
    0 ≤ (steadyInput dt left right r1 r2 f).r1 ∧ 0 ≤ (steadyInput dt left right r1 r2 f).r2 :=
  ⟨h1, h2⟩

/-! ## The claims -/

/-- C1 (the boundary clamp fails on the code): from the initial state, a session
started by Enter in which the left key is held for eighteen frames ends with
the player at x = -5, left of the screen (after seventeen frames x = 5 still
passes the guard `player.x > 0`); with the right key held instead it ends at
x = 355, where x + w = 405 exceeds the screen width 400. -/
theorem C1_clamp_overshoot :
    (runLoop initState (holdLeftRun.take 17)).player.x = 5 ∧
    (runLoop initState (holdRightRun.take 17)).player.x = 345 ∧
    (runLoop initState holdLeftRun).gameState = GameState.PLAYING ∧
    (runLoop initState holdLeftRun).player.x = -5 ∧
    ¬ (0 ≤ (runLoop initState holdLeftRun).player.x) ∧
    (runLoop initState holdRightRun).gameState = GameState.PLAYING ∧
    (runLoop initState holdRightRun).player.x = 355 ∧
    ¬ ((runLoop initState holdRightRun).player.x + (runLoop initState holdRightRun).player.w
        ≤ SCREEN_WIDTH) := by
  decide!

/-- C3 (the high score can stay below the final score): in the run `crashRun`
a bonus and an obstacle first overlap the player in the same frame.  Before
that frame the state is Playing with score 0, the player at x = 155, an obstacle
at (125, 417) and a bonus at (135, 470); the frame, at elapsed time 7 s, moves
them by 7 and 3 onto the player (y from 500 to 580) and ends in GameOver with
final score 5 while the high score is still 0. -/
theorem C3_high_score_below_final_score :
    Reachable (runLoop initState crashRun) ∧
    (runLoop initState (crashRun.take 305)).gameState = GameState.PLAYING ∧
    (runLoop initState (crashRun.take 305)).score = 0 ∧
    (runLoop initState (crashRun.take 305)).highScore = 0 ∧
    (runLoop initState (crashRun.take 305)).player = { x := 155, y := 500, w := 50, h := 80 } ∧
    (runLoop initState (crashRun.take 305)).enemies.map (fun e => (e.rect.x, e.rect.y)) =
      [(125, 417), (325, 144)] ∧
    (runLoop initState (crashRun.take 305)).stars.map (fun st => (st.rect.x, st.rect.y)) =
      [(135, 470), (335, 199)] ∧
    (runLoop initState crashRun).enemySpeed = 7 ∧
    (runLoop initState crashRun).starSpeed = 3 ∧
    (runLoop initState crashRun).gameState = GameState.GAME_OVER ∧
    (runLoop initState crashRun).score = 5 ∧
    (runLoop initState crashRun).highScore = 0 ∧
    ¬ ((runLoop initState crashRun).highScore ≥ (runLoop initState crashRun).score) := by
  refine ⟨?_, ?_⟩
  · apply reachable_runLoop _ _ Reachable.start
    intro i hi
    simp only [crashRun, List.mem_map] at hi
    obtain ⟨f, _, rfl⟩ := hi
    apply steadyInput_valid <;> split_ifs <;> decide
  · decide!

/-- C5 (difficulty model): in a Playing frame whose clock value `now` is at
least the session start (both below 2^32), the elapsed time is
floor((now - start) / 1000), the obstacle speed is 6 + floor(elapsed / 5) and
the bonus speed is 2 + floor(elapsed / 5); both speeds are non-decreasing in
`now`; the obstacle speed is 6, 7 and 11 at elapsed 0, 5 and 25. -/
theorem C5_difficulty_model (s : State) (left right : Bool) (now : Nat) (r1 r2 : Int)
    (hp : s.gameState = GameState.PLAYING) (hge : s.gameStartTime ≤ now)
    (hlt : now < UINT32_MOD) :
    (frame s left right now r1 r2).timePlayed = ((now : Int) - (s.gameStartTime : Int)) / 1000 ∧
    (frame s left right now r1 r2).enemySpeed = 6 + (frame s left right now r1 r2).timePlayed / 5 ∧
    (frame s left right now r1 r2).starSpeed = 2 + (frame s left right now r1 r2).timePlayed / 5 ∧
    (∀ now2 : Nat, now ≤ now2 → now2 < UINT32_MOD →
      (frame s left right now r1 r2).enemySpeed ≤ (frame s left right now2 r1 r2).enemySpeed ∧
      (frame s left right now r1 r2).starSpeed ≤ (frame s left right now2 r1 r2).starSpeed) ∧
    ((frame s left right now r1 r2).timePlayed = 0 → (frame s left right now r1 r2).enemySpeed = 6) ∧
    ((frame s left right now r1 r2).timePlayed = 5 → (frame s left right now r1 r2).enemySpeed = 7) ∧
    ((frame s left right now r1 r2).timePlayed = 25 →
      (frame s left right now r1 r2).enemySpeed = 11) := by
  have key : ∀ n : Nat, s.gameStartTime ≤ n → n < UINT32_MOD →
      (frame s left right n r1 r2).timePlayed = ((n : Int) - (s.gameStartTime : Int)) / 1000 ∧
      (frame s left right n r1 r2).enemySpeed =
        6 + (((n : Int) - (s.gameStartTime : Int)) / 1000) / 5 ∧
      (frame s left right n r1 r2).starSpeed =
        2 + (((n : Int) - (s.gameStartTime : Int)) / 1000) / 5 := by
    intro n h1 h2
    have hdiv : (Int.ofNat (u32sub n s.gameStartTime / 1000)) =
        ((n : Int) - (s.gameStartTime : Int)) / 1000 := by
      rw [u32sub_of_le n s.gameStartTime h1 h2]
      simp only [Int.ofNat_eq_coe]
      omega
    have hnn : (0 : Int) ≤ ((n : Int) - (s.gameStartTime : Int)) / 1000 := by omega
    rw [frame_timePlayed s left right n r1 r2 hp, frame_enemySpeed s left right n r1 r2 hp,
      frame_starSpeed s left right n r1 r2 hp, hdiv, Int.tdiv_eq_ediv hnn (by decide)]
    simp [baseSpeed]
  obtain ⟨k1, k2, k3⟩ := key now hge hlt
  refine ⟨k1, ?_, ?_, ?_, ?_, ?_, ?_⟩
  · rw [k2, k1]
  · rw [k3, k1]
  · intro now2 h1 h2
    obtain ⟨_, m2, m3⟩ := key now2 (le_trans hge h1) h2
    rw [k2, k3, m2, m3]
    constructor <;> omega
  · intro h; rw [k2, ← k1, h]; decide
  · intro h; rw [k2, ← k1, h]; decide
  · intro h; rw [k2, ← k1, h]; decide

/-- Witness of C5: the first frame of `crashState 0 0`, at clock value 25000
with the session started at 0, has elapsed time 25 and obstacle speed 11. -/
theorem C5_difficulty_model_witness :
    (frame (crashState 0 0) false false 25000 0 0).timePlayed = 25 ∧
    (frame (crashState 0 0) false false 25000 0 0).enemySpeed = 11 :=
  have h := C5_difficulty_model (crashState 0 0) false false 25000 0 0 (by decide) (by decide)
    (by decide)
  ⟨h.1.trans (by decide), h.2.2.2.2.2.2 (h.1.trans (by decide))⟩

/-- C6 (state machine): the initial state is Menu; an event changes the state
only from Menu to Playing or from GameOver to Menu, both on a confirm key-down;
keyboard movement never changes it; the update changes it only from Playing to
GameOver, and only when an obstacle overlaps the player.  A confirm key-down
yields Playing from Menu, Menu (never Playing) from GameOver, and leaves Playing
unchanged; any other key-down leaves the state unchanged. -/
theorem C6_state_machine :
    initState.gameState = GameState.MENU ∧
    (∀ (s : State) (e : SDL_Event) (t1 t2 t3 : Nat),
      (handleEvent s e t1 t2 t3).gameState = s.gameState ∨
      (s.gameState = GameState.MENU ∧ e = confirmEvent ∧
        (handleEvent s e t1 t2 t3).gameState = GameState.PLAYING) ∨
      (s.gameState = GameState.GAME_OVER ∧ e = confirmEvent ∧
        (handleEvent s e t1 t2 t3).gameState = GameState.MENU)) ∧
    (∀ (s : State) (left right : Bool), (movePlayer s left right).gameState = s.gameState) ∧
    (∀ (s : State) (now : Nat) (r1 r2 : Int),
      (update s now r1 r2).gameState = s.gameState ∨
      (s.gameState = GameState.PLAYING ∧ (update s now r1 r2).gameState = GameState.GAME_OVER ∧
        ∃ e ∈ (if u32sub now s.lastSpawnTime > 1000 then s.enemies ++ [spawnEnemy r1]
                else s.enemies),
          SDL_HasIntersection s.player
            { x := e.rect.x, y := e.rect.y + (update s now r1 r2).enemySpeed,
              w := e.rect.w, h := e.rect.h } = true)) ∧
    (∀ (s : State) (t1 t2 t3 : Nat), s.gameState = GameState.MENU →
      (handleEvent s confirmEvent t1 t2 t3).gameState = GameState.PLAYING) ∧
    (∀ (s : State) (t1 t2 t3 : Nat), s.gameState = GameState.GAME_OVER →
      (handleEvent s confirmEvent t1 t2 t3).gameState = GameState.MENU) ∧
    (∀ (s : State) (t1 t2 t3 : Nat), s.gameState = GameState.PLAYING →
      (handleEvent s confirmEvent t1 t2 t3).gameState = GameState.PLAYING) ∧
    (∀ (s : State) (e : SDL_Event) (t1 t2 t3 : Nat), e.type = SDL_KEYDOWN → e.sym ≠ SDLK_RETURN →
      (handleEvent s e t1 t2 t3).gameState = s.gameState) := by
  refine ⟨rfl, ?_, movePlayer_gameState, ?_, ?_, ?_, ?_, ?_⟩
  · intro s e t1 t2 t3
    obtain ⟨ty, sym⟩ := e
    unfold handleEvent confirmEvent
    simp only [SDL_Event.mk.injEq]
    split_ifs <;> simp_all
  · intro s now r1 r2
    by_cases hp : s.gameState = GameState.PLAYING
    · have hc := update_collide s now r1 r2 hp
      rw [collide_moved] at hc
      generalize (if u32sub now s.lastSpawnTime > 1000 then s.enemies ++ [spawnEnemy r1]
        else s.enemies) = pre at hc ⊢
      split_ifs at hc with hk
      · right
        refine ⟨hp, (Prod.mk.inj hc).1, ?_⟩
        rw [Nat.succ_le_iff, List.countP_pos_iff] at hk
        obtain ⟨e, he, hhit⟩ := hk
        exact ⟨e, he, hhit⟩
      · left
        rw [(Prod.mk.inj hc).1, hp]
    · left; rw [update_of_not_playing s now r1 r2 hp]
  · intro s t1 t2 t3 h
    simp [handleEvent, confirmEvent, h, keydown_ne_quit]
  · intro s t1 t2 t3 h
    simp [handleEvent, confirmEvent, h, keydown_ne_quit]
  · intro s t1 t2 t3 h
    simp [handleEvent, confirmEvent, h, keydown_ne_quit]
  · intro s e t1 t2 t3 h1 h2
    unfold handleEvent
    split_ifs <;> simp_all

/-- Witness of C6: a confirm key-down in the initial (Menu) state starts
Playing. -/
theorem C6_state_machine_witness :
    initState.gameState = GameState.MENU ∧
    (handleEvent initState confirmEvent 0 0 0).gameState = GameState.PLAYING :=
  ⟨rfl, C6_state_machine.2.2.2.2.1 initState 0 0 0 rfl⟩

/-- C7 (session reset): in every Menu state, a confirm key-down handled at
clock time `t` gives Playing with player x = 175 (centred when the width is the
player's 50), no obstacles, no bonuses, the two spawn timestamps and the
session start equal to `t`, score 0 and elapsed time 0; the high score and the
player's y, width and height are unchanged. -/
theorem C7_session_reset (s : State) (t : Nat) (hm : s.gameState = GameState.MENU) :
    (handleEvent s confirmEvent t t t).gameState = GameState.PLAYING ∧
    (handleEvent s confirmEvent t t t).player.x = 175 ∧
    (s.player.w = 50 →
      (handleEvent s confirmEvent t t t).player.x + (handleEvent s confirmEvent t t t).player.w / 2
        = SCREEN_WIDTH / 2) ∧
    (handleEvent s confirmEvent t t t).enemies = [] ∧
    (handleEvent s confirmEvent t t t).stars = [] ∧
    (handleEvent s confirmEvent t t t).lastSpawnTime = t ∧
    (handleEvent s confirmEvent t t t).lastStarTime = t ∧
    (handleEvent s confirmEvent t t t).gameStartTime = t ∧
    (handleEvent s confirmEvent t t t).score = 0 ∧
    (handleEvent s confirmEvent t t t).timePlayed = 0 ∧
    (handleEvent s confirmEvent t t t).highScore = s.highScore ∧
    (handleEvent s confirmEvent t t t).player.y = s.player.y ∧
    (handleEvent s confirmEvent t t t).player.w = s.player.w ∧
    (handleEvent s confirmEvent t t t).player.h = s.player.h := by
  have h : handleEvent s confirmEvent t t t =
      { s with
        player := { s.player with x := 175 }
        enemies := []
        stars := []
        lastSpawnTime := t
        lastStarTime := t
        gameStartTime := t
        score := 0
        timePlayed := 0
        gameState := GameState.PLAYING } := by
    simp [handleEvent, confirmEvent, hm, keydown_ne_quit, center_x]
  rw [h]
  refine ⟨rfl, rfl, ?_, rfl, rfl, rfl, rfl, rfl, rfl, rfl, rfl, rfl, rfl, rfl⟩
  intro hw
  simp only [hw, SCREEN_WIDTH]
  decide

/-- Witness of C7: Enter pressed in the initial state at clock time 1234. -/
theorem C7_session_reset_witness :
    initState.gameState = GameState.MENU ∧
    (handleEvent initState confirmEvent 1234 1234 1234).gameState = GameState.PLAYING ∧
    (handleEvent initState confirmEvent 1234 1234 1234).player.x = 175 ∧
    (handleEvent initState confirmEvent 1234 1234 1234).player.x +
      (handleEvent initState confirmEvent 1234 1234 1234).player.w / 2 = SCREEN_WIDTH / 2 ∧
    (handleEvent initState confirmEvent 1234 1234 1234).gameStartTime = 1234 :=
  have h := C7_session_reset initState 1234 rfl
  ⟨rfl, h.1, h.2.1, h.2.2.1 rfl, h.2.2.2.2.2.2.2.1⟩

/-- C9 (lane placement): a `rand()` value r >= 0 gives lane r mod 4 in
0, 1, 2, 3; the spawned obstacle has x = 100 * lane + 25 and the spawned bonus
x = 100 * lane + 35; moving an entity does not change its x; and in every
reachable state each obstacle has x in 25, 125, 225, 325 and each bonus x in
35, 135, 235, 335, inside one 100-pixel lane and inside the 400-pixel screen. -/
theorem C9_lane_placement :
    (∀ r : Int, 0 ≤ r →
      Int.tmod r 4 = r % 4 ∧
      (Int.tmod r 4 = 0 ∨ Int.tmod r 4 = 1 ∨ Int.tmod r 4 = 2 ∨ Int.tmod r 4 = 3) ∧
      (spawnEnemy r).rect.x = 100 * Int.tmod r 4 + 25 ∧
      ((spawnEnemy r).rect.x = 25 ∨ (spawnEnemy r).rect.x = 125 ∨
        (spawnEnemy r).rect.x = 225 ∨ (spawnEnemy r).rect.x = 325) ∧
      (spawnStar r).rect.x = 100 * Int.tmod r 4 + 35 ∧
      ((spawnStar r).rect.x = 35 ∨ (spawnStar r).rect.x = 135 ∨
        (spawnStar r).rect.x = 235 ∨ (spawnStar r).rect.x = 335)) ∧
    (∀ (v : Int) (e : EnemyCar), (moveEnemy v e).rect.x = e.rect.x) ∧
    (∀ (v : Int) (st : Star), (moveStar v st).rect.x = st.rect.x) ∧
    (∀ s : State, Reachable s →
      (∀ e ∈ s.enemies,
        (e.rect.x = 25 ∨ e.rect.x = 125 ∨ e.rect.x = 225 ∨ e.rect.x = 325) ∧
        (∃ lane : Int, 0 ≤ lane ∧ lane < 4 ∧ LANE_WIDTH * lane ≤ e.rect.x ∧
          e.rect.x + e.rect.w ≤ LANE_WIDTH * (lane + 1)) ∧
        0 ≤ e.rect.x ∧ e.rect.x + e.rect.w ≤ SCREEN_WIDTH) ∧
      (∀ st ∈ s.stars,
        (st.rect.x = 35 ∨ st.rect.x = 135 ∨ st.rect.x = 235 ∨ st.rect.x = 335) ∧
        (∃ lane : Int, 0 ≤ lane ∧ lane < 4 ∧ LANE_WIDTH * lane ≤ st.rect.x ∧
          st.rect.x + st.rect.w ≤ LANE_WIDTH * (lane + 1)) ∧
        0 ≤ st.rect.x ∧ st.rect.x + st.rect.w ≤ SCREEN_WIDTH)) := by
  refine ⟨?_, fun _ _ => rfl, fun _ _ => rfl, ?_⟩
  · intro r hr
    obtain ⟨h1, h2, h3⟩ := lane_of_rand r hr
    simp only [spawnEnemy, spawnStar, LANE_WIDTH]
    rw [h1]
    refine ⟨rfl, ?_, ?_, ?_, ?_, ?_⟩ <;> omega
  · intro s hs
    have hinv := reachable_inv s hs
    constructor
    · intro e he
      obtain ⟨_, hw, hx⟩ := hinv.enemies_ok e he
      simp only [InLane] at hx
      simp only [LANE_WIDTH, SCREEN_WIDTH, hw]
      refine ⟨by omega, ⟨(e.rect.x - 25) / 100, ?_⟩, by omega, by omega⟩
      omega
    · intro st hst
      obtain ⟨_, hw, hx⟩ := hinv.stars_ok st hst
      simp only [InLane] at hx
      simp only [LANE_WIDTH, SCREEN_WIDTH, hw]
      refine ⟨by omega, ⟨(st.rect.x - 35) / 100, ?_⟩, by omega, by omega⟩
      omega

/-- Witness of C9: the `rand()` value 7 gives lane 3, an obstacle at x = 325
and a bonus at x = 335. -/
theorem C9_lane_placement_witness :
    Int.tmod 7 4 = 3 ∧ (spawnEnemy 7).rect.x = 325 ∧ (spawnStar 7).rect.x = 335 :=
  have h := C9_lane_placement.1 7 (by decide)
  ⟨by decide, h.2.2.1.trans (by decide), h.2.2.2.2.1.trans (by decide)⟩

/-- C10 (player position range): in every reachable state the player's x is
between -5 and 355 and is congruent to 5 modulo 10, so the rectangle extends at
most 5 pixels beyond either screen edge; x = -5 and x = 355 are both reached
while the loop is running. -/
theorem C10_player_range :
    (∀ s : State, Reachable s →
      -5 ≤ s.player.x ∧ s.player.x ≤ 355 ∧ s.player.x % 10 = 5 ∧
      0 - 5 ≤ s.player.x ∧ s.player.x + s.player.w ≤ SCREEN_WIDTH + 5) ∧
    (∃ s : State, Reachable s ∧ s.running = true ∧ s.player.x = -5) ∧
    (∃ s : State, Reachable s ∧ s.running = true ∧ s.player.x = 355) := by
  refine ⟨?_, ⟨runLoop initState holdLeftRun, ?_, by decide!, by decide!⟩,
    ⟨runLoop initState holdRightRun, ?_, by decide!, by decide!⟩⟩
  · intro s hs
    have hinv := reachable_inv s hs
    have h1 := hinv.player_lo
    have h2 := hinv.player_hi
    have h3 := hinv.player_mod
    have h4 := hinv.player_w
    simp only [SCREEN_WIDTH]
    omega
  · apply reachable_runLoop _ _ Reachable.start
    intro i hi
    simp only [holdLeftRun, List.mem_map] at hi
    obtain ⟨f, _, rfl⟩ := hi
    exact steadyInput_valid _ _ _ _ _ _ (by decide) (by decide)
  · apply reachable_runLoop _ _ Reachable.start
    intro i hi
    simp only [holdRightRun, List.mem_map] at hi
    obtain ⟨f, _, rfl⟩ := hi
    exact steadyInput_valid _ _ _ _ _ _ (by decide) (by decide)

/-- Witness of C10: the state after Enter is reachable and has the player at
x = 175, within the range. -/
theorem C10_player_range_witness :
    -5 ≤ (handleEvent initState confirmEvent 0 0 0).player.x ∧
    (handleEvent initState confirmEvent 0 0 0).player.x ≤ 355 ∧
    (handleEvent initState confirmEvent 0 0 0).player.x % 10 = 5 :=
  have h := C10_player_range.1 (handleEvent initState confirmEvent 0 0 0)
    (Reachable.event initState confirmEvent 0 0 0 Reachable.start)
  ⟨h.1, h.2.1, h.2.2.1⟩

/-- C2 (collision resolution): in a Playing frame let k be the number of
obstacles of the collection (the one spawned this frame included) whose
rectangle, after the position update, overlaps the moved player.  If k >= 1 the
frame ends in GameOver with high score max(previous high score, score), whatever
k is; if k = 0 the state stays Playing and the high score is unchanged.
Scenario: a crash with score 50 and high score 30 gives high score 50, two
confirm key-downs then start a new session that keeps it, and a crash with
score 20 and high score 50 leaves it at 50. -/
theorem C2_collision_resolution :
    (∀ (s : State) (left right : Bool) (now : Nat) (r1 r2 : Int) (k : Nat),
      s.gameState = GameState.PLAYING →
      k = (if u32sub now s.lastSpawnTime > 1000 then s.enemies ++ [spawnEnemy r1]
            else s.enemies).countP (fun e =>
              SDL_HasIntersection (frame s left right now r1 r2).player
                { x := e.rect.x, y := e.rect.y + (frame s left right now r1 r2).enemySpeed,
                  w := e.rect.w, h := e.rect.h }) →
      (1 ≤ k → (frame s left right now r1 r2).gameState = GameState.GAME_OVER ∧
        (frame s left right now r1 r2).highScore = max s.highScore s.score) ∧
      (k = 0 → (frame s left right now r1 r2).gameState = GameState.PLAYING ∧
        (frame s left right now r1 r2).highScore = s.highScore)) ∧
    ((frame (crashState 50 30) false false 0 0 0).gameState = GameState.GAME_OVER ∧
     (frame (crashState 50 30) false false 0 0 0).highScore = 50 ∧
     (handleEvent (handleEvent (frame (crashState 50 30) false false 0 0 0) confirmEvent 0 0 0)
        confirmEvent 0 0 0).gameState = GameState.PLAYING ∧
     (handleEvent (handleEvent (frame (crashState 50 30) false false 0 0 0) confirmEvent 0 0 0)
        confirmEvent 0 0 0).score = 0 ∧
     (handleEvent (handleEvent (frame (crashState 50 30) false false 0 0 0) confirmEvent 0 0 0)
        confirmEvent 0 0 0).highScore = 50 ∧
     (frame (crashState 20 50) false false 0 0 0).gameState = GameState.GAME_OVER ∧
     (frame (crashState 20 50) false false 0 0 0).highScore = 50) := by
  refine ⟨?_, by decide⟩
  intro s left right now r1 r2 k hp hk
  have hc := frame_collide s left right now r1 r2 hp
  rw [collide_moved, ← hk] at hc
  constructor
  · intro h1
    rw [if_pos h1] at hc
    exact ⟨(Prod.mk.inj hc).1, (Prod.mk.inj hc).2⟩
  · intro h0
    rw [if_neg (by omega)] at hc
    exact ⟨(Prod.mk.inj hc).1, (Prod.mk.inj hc).2⟩

/-- Witness of C2: in `crashState 50 30` one obstacle overlaps the player, and
the frame ends in GameOver with high score 50. -/
theorem C2_collision_resolution_witness :
    (crashState 50 30).gameState = GameState.PLAYING ∧
    (frame (crashState 50 30) false false 0 0 0).gameState = GameState.GAME_OVER ∧
    (frame (crashState 50 30) false false 0 0 0).highScore = max 30 50 :=
  ⟨rfl, (C2_collision_resolution.1 (crashState 50 30) false false 0 0 0 1 rfl (by decide)).1
    (le_refl 1)⟩

/-- C4 (scoring): in a Playing frame the score grows by 5 for each bonus of the
collection (the one spawned this frame included) whose rectangle, after the
position update, overlaps the moved player; the bonuses left after the frame are
the moved ones that are active and do not overlap the player, so none of them
overlaps it; the score does not decrease over the frame, and it is non-negative
in every reachable state.  While Playing nothing else touches the score: an
event keeps the state Playing and the score, keyboard movement keeps the score,
so over a whole loop iteration that starts in Playing the score does not
decrease.  A confirm key-down in Menu starts the session with score 0.
Scenario: from score 0, one collection gives 5 and a second gives 10. -/
theorem C4_scoring :
    (∀ (s : State) (left right : Bool) (now : Nat) (r1 r2 : Int) (n : Nat),
      s.gameState = GameState.PLAYING →
      n = (if u32sub now s.lastStarTime > 3000 then s.stars ++ [spawnStar r2]
            else s.stars).countP (fun st =>
              SDL_HasIntersection (frame s left right now r1 r2).player
                { x := st.rect.x, y := st.rect.y + (frame s left right now r1 r2).starSpeed,
                  w := st.rect.w, h := st.rect.h }) →
      (frame s left right now r1 r2).score = s.score + 5 * (n : Int) ∧
      (frame s left right now r1 r2).stars =
        ((if u32sub now s.lastStarTime > 3000 then s.stars ++ [spawnStar r2]
            else s.stars).map (moveStar (frame s left right now r1 r2).starSpeed)).filter
          (fun st => st.active &&
            !SDL_HasIntersection (frame s left right now r1 r2).player st.rect) ∧
      (∀ st ∈ (frame s left right now r1 r2).stars,
        SDL_HasIntersection (frame s left right now r1 r2).player st.rect = false) ∧
      s.score ≤ (frame s left right now r1 r2).score) ∧
    (∀ s : State, Reachable s → 0 ≤ s.score) ∧
    (∀ (s : State) (t1 t2 t3 : Nat), s.gameState = GameState.MENU →
      (handleEvent s confirmEvent t1 t2 t3).score = 0) ∧
    (∀ (s : State) (e : SDL_Event) (t1 t2 t3 : Nat), s.gameState = GameState.PLAYING →
      (handleEvent s e t1 t2 t3).gameState = GameState.PLAYING ∧
      (handleEvent s e t1 t2 t3).score = s.score) ∧
    (∀ (s : State) (left right : Bool), (movePlayer s left right).score = s.score) ∧
    (∀ (s : State) (i : LoopInput), s.gameState = GameState.PLAYING →
      (pollEvents s i.events).score = s.score ∧ s.score ≤ (loopBody s i).score) ∧
    (∀ (s : State) (now : Nat) (r1 r2 : Int), s.gameState ≠ GameState.PLAYING →
      (update s now r1 r2).score = s.score) ∧
    (twoStarState.score = 0 ∧
     (frame twoStarState false false 0 0 0).gameState = GameState.PLAYING ∧
     (frame twoStarState false false 0 0 0).score = 5 ∧
     (frame twoStarState false false 0 0 0).stars.length = 1 ∧
     (frame (frame twoStarState false false 0 0 0) false false 0 0 0).score = 10 ∧
     (frame (frame twoStarState false false 0 0 0) false false 0 0 0).stars = []) := by
  refine ⟨?_, fun s hs => (reachable_inv s hs).score_nonneg, ?_, handleEvent_of_playing,
    movePlayer_score, ?_, ?_, by decide⟩
  · intro s left right now r1 r2 n hp hn
    have hc := frame_collect s left right now r1 r2 hp
    rw [collectStars_snd, collectStars_fst, collected_purge, count_moved_stars, ← hn] at hc
    have h1 := (Prod.mk.inj hc).1
    have h2 := (Prod.mk.inj hc).2
    refine ⟨h2, h1, ?_, by omega⟩
    intro st hst
    rw [h1, List.mem_filter] at hst
    have := hst.2
    simp only [Bool.and_eq_true, Bool.not_eq_true'] at this
    exact this.2
  · intro s t1 t2 t3 hm
    simp [handleEvent, confirmEvent, hm, keydown_ne_quit]
  · intro s i hp
    obtain ⟨h1, h2⟩ := pollEvents_of_playing i.events s hp
    refine ⟨h2, ?_⟩
    have h3 := frame_score_le (pollEvents s i.events) i.left i.right i.now i.r1 i.r2 h1
    unfold loopBody
    omega
  · intro s now r1 r2 hp
    rw [update_of_not_playing s now r1 r2 hp]

/-- Witness of C4: in `twoStarState` one bonus overlaps the player after the
update, and the score goes from 0 to 5; a confirm key-down handled afterwards,
still in Playing, keeps that score. -/
theorem C4_scoring_witness :
    twoStarState.gameState = GameState.PLAYING ∧
    (frame twoStarState false false 0 0 0).score = 0 + 5 * ((1 : Nat) : Int) ∧
    (frame twoStarState false false 0 0 0).gameState = GameState.PLAYING ∧
    (handleEvent (frame twoStarState false false 0 0 0) confirmEvent 16 16 16).score =
      (frame twoStarState false false 0 0 0).score :=
  ⟨rfl, (C4_scoring.1 twoStarState false false 0 0 0 1 rfl (by decide)).1, by decide,
    (C4_scoring.2.2.2.1 (frame twoStarState false false 0 0 0) confirmEvent 16 16 16
      (by decide)).2⟩

/-- C8 (entity update and purge): in a Playing frame from a reachable state, the
obstacles after the frame are the obstacles before it (the one spawned this
frame included), each with the current obstacle speed added to its y, of which
exactly those with new y <= 600 are kept, in their order; so every obstacle
left is active and on screen.  Scenario (16 ms frames, speed 6): the obstacle
spawned in iteration 63 at y = -80 is at y = -80 + 6 k, still in the collection,
after each of its first 113 updates, and is gone after its 114th. -/
theorem C8_update_and_purge :
    (∀ (s : State) (left right : Bool) (now : Nat) (r1 r2 : Int),
      Reachable s → s.gameState = GameState.PLAYING →
      (frame s left right now r1 r2).enemies =
        ((if u32sub now s.lastSpawnTime > 1000 then s.enemies ++ [spawnEnemy r1]
            else s.enemies).map (fun e =>
              ({ rect := { x := e.rect.x
                           y := e.rect.y + (frame s left right now r1 r2).enemySpeed
                           w := e.rect.w
                           h := e.rect.h }
                 active := e.active } : EnemyCar))).filter
          (fun e => decide (e.rect.y ≤ SCREEN_HEIGHT)) ∧
      (∀ e ∈ (frame s left right now r1 r2).enemies,
        e.active = true ∧ e.rect.y ≤ SCREEN_HEIGHT)) ∧
    ((runLoop initState (quietRun 63)).enemies = [] ∧
     (∀ k : Nat, k < 113 →
       (runLoop initState (quietRun (64 + k))).enemySpeed = 6 ∧
       (runLoop initState (quietRun (64 + k))).enemies.head? =
         some { rect := { x := 25, y := -80 + 6 * ((k : Int) + 1), w := 50, h := 80 },
                active := true }) ∧
     (runLoop initState (quietRun 176)).enemies.map (fun e => e.rect.y) = [598, 220] ∧
     (runLoop initState (quietRun 177)).enemySpeed = 6 ∧
     (runLoop initState (quietRun 177)).enemies.map (fun e => e.rect.y) = [226]) := by
  refine ⟨?_, by decide!⟩
  intro s left right now r1 r2 hr hp
  have hinv := reachable_inv s hr
  have hact : ∀ e ∈ (if u32sub now s.lastSpawnTime > 1000 then s.enemies ++ [spawnEnemy r1]
      else s.enemies), e.active = true := by
    intro e he
    split_ifs at he
    · rcases List.mem_append.mp he with hm | hm
      · exact (hinv.enemies_ok e hm).1
      · rw [List.mem_singleton] at hm
        subst hm
        rfl
    · exact (hinv.enemies_ok e he).1
  have heq := frame_enemies s left right now r1 r2 hp
  rw [purge_moved _ _ hact] at heq
  refine ⟨heq, ?_⟩
  intro e he
  rw [heq, List.mem_filter, List.mem_map] at he
  obtain ⟨⟨e0, he0, rfl⟩, hy⟩ := he
  exact ⟨hact e0 he0, of_decide_eq_true hy⟩

/-- Witness of C8: the state after 176 iterations of the quiet run is reachable
and Playing and holds two obstacles, at y = 598 and y = 220; the next frame
(clock 2816, speed 6) moves them to 604 and 226 and keeps only the second. -/
theorem C8_update_and_purge_witness :
    (runLoop initState (quietRun 176)).gameState = GameState.PLAYING ∧
    (runLoop initState (quietRun 176)).enemies.map (fun e => e.rect.y) = [598, 220] ∧
    (frame (runLoop initState (quietRun 176)) false false 2816 0 0).enemies =
      [{ rect := { x := 25, y := 226, w := 50, h := 80 }, active := true }] :=
  ⟨by decide!, by decide!,
    ((C8_update_and_purge.1 (runLoop initState (quietRun 176)) false false 2816 0 0
      (quietRun_reachable 176) (by decide!)).1).trans (by decide!)⟩

end CarDodging
